import Mathlib

/-!
Verification of the credential-rotating rate-limit scheduler and the staged
crawl pipeline of the Crawler-command repository.

The embedding translates the Python sources:
  * src/token_manager.py  — TokenStatus, TokenManager (rotation, quota
    observation, rate gate, retry loop);
  * src/nohope.py         — search stage, commits stage.

Times are modelled as rationals (Python floats carry wall-clock seconds),
quota counters as integers (Python ints parsed from headers), and the two
blocking loops of the source (rotate_token's sleep-and-rescan loop and the
rate-gate wait loop) as fuel-indexed functions returning none when the
allotted fuel is exhausted: a function whose result is none for every fuel
models a call that never returns.
-/

/-- Mirrors the TokenStatus dataclass of src/token_manager.py (lines 13-24),
with its field defaults. -/
structure TokenStatus where
  token : String
  remaining : Int := 5000
  limit : Int := 5000
  reset_time : Int := 0
  last_used : ℚ := 0
  success_count : Nat := 0
  failure_count : Nat := 0
  is_cooling_down : Bool := false
  cooldown_until : ℚ := 0
deriving DecidableEq, Repr

/-- Configuration of TokenManager.__init__ (src/token_manager.py lines 29-40):
the quota floor and the minimum spacing between requests. -/
structure TMConfig where
  min_remaining_requests : Int := 100
  request_interval : ℚ := 1/10
deriving DecidableEq, Repr

/-- TokenManager.get_current_token (src/token_manager.py lines 57-61):
None on an empty pool, otherwise the token at the rotation cursor. -/
def get_current_token (tokens : List TokenStatus) (idx : Nat) : Option TokenStatus :=
  if tokens.isEmpty then none else tokens.get? idx

/-- The while-True body of TokenManager.rotate_token (src/token_manager.py
lines 68-80), fuel-indexed.  Each step advances the cursor by one modulo the
pool size; on wrapping to the original index the source sleeps 60 seconds and
continues (without examining any flag or the clock); otherwise it stops as
soon as the token at the new cursor is not cooling down.  none means the
fuel ran out, i.e. the source loop was still running. -/
def rotate_token_loop (tokens : List TokenStatus) (original : Nat) :
    Nat → Nat → Option Nat
  | _, 0 => none
  | idx, fuel + 1 =>
    let idx1 := (idx + 1) % tokens.length
    if idx1 = original then
      rotate_token_loop tokens original idx1 fuel
    else
      match tokens.get? idx1 with
      | none => none
      | some t =>
        if t.is_cooling_down then rotate_token_loop tokens original idx1 fuel
        else some idx1

/-- TokenManager.rotate_token (src/token_manager.py lines 63-80): returns the
new cursor; on an empty pool it returns immediately leaving the cursor
unchanged (source line 65-66). -/
def rotate_token (tokens : List TokenStatus) (idx : Nat) (fuel : Nat) : Option Nat :=
  if tokens.isEmpty then some idx else rotate_token_loop tokens idx idx fuel

lemma rotate_token_loop_all_cooling (tokens : List TokenStatus)
    (hall : ∀ t ∈ tokens, t.is_cooling_down = true) :
    ∀ fuel original idx, rotate_token_loop tokens original idx fuel = none := by
  intro fuel
  induction fuel with
  | zero => intro original idx; rfl
  | succ n ih =>
    intro original idx
    simp only [rotate_token_loop]
    by_cases h1 : (idx + 1) % tokens.length = original
    · simp [h1, ih]
    · simp only [h1, if_false]
      cases hg : tokens.get? ((idx + 1) % tokens.length) with
      | none => rfl
      | some t =>
        have ht : t.is_cooling_down = true := hall t (List.get?_mem hg)
        simp [ht, ih]

lemma rotate_token_all_cooling (tokens : List TokenStatus) (idx : Nat)
    (hne : tokens ≠ []) (hall : ∀ t ∈ tokens, t.is_cooling_down = true) :
    ∀ fuel, rotate_token tokens idx fuel = none := by
  intro fuel
  unfold rotate_token
  simp [List.isEmpty_iff, hne, rotate_token_loop_all_cooling tokens hall]

lemma rotate_token_loop_break (tokens : List TokenStatus) (original : Nat) :
    ∀ fuel idx idx1, rotate_token_loop tokens original idx fuel = some idx1 →
      idx1 ≠ original ∧
      ∃ t, tokens.get? idx1 = some t ∧ t.is_cooling_down = false := by
  intro fuel
  induction fuel with
  | zero => intro idx idx1 h; exact absurd h (by simp [rotate_token_loop])
  | succ n ih =>
    intro idx idx1 h
    simp only [rotate_token_loop] at h
    by_cases h1 : (idx + 1) % tokens.length = original
    · rw [if_pos h1] at h
      exact ih _ _ h
    · rw [if_neg h1] at h
      cases hg : tokens.get? ((idx + 1) % tokens.length) with
      | none => rw [hg] at h; exact absurd h (by simp)
      | some t =>
        rw [hg] at h
        dsimp only at h
        by_cases hc : t.is_cooling_down = true
        · rw [if_pos hc] at h
          exact ih _ _ h
        · rw [if_neg hc] at h
          have heq : (idx + 1) % tokens.length = idx1 := by
            simpa using h
          subst heq
          exact ⟨h1, t, hg, by simpa using hc⟩

lemma rotate_token_singleton (t : TokenStatus) :
    ∀ fuel, rotate_token [t] 0 fuel = none := by
  intro fuel
  unfold rotate_token
  simp only [List.isEmpty_cons, if_false, Bool.false_eq_true]
  induction fuel with
  | zero => rfl
  | succ n ih => simpa [rotate_token_loop] using ih

/-- A concrete pool of two credentials that are both cooling down, with
cooldown_until = 5, i.e. a cooldown that has long expired by, say, time 100.
This is the failing input for the all-cooling rotation claim. -/
def two_cooling_pool : List TokenStatus :=
  [{ token := "a", is_cooling_down := true, cooldown_until := 5 },
   { token := "b", is_cooling_down := true, cooldown_until := 5 }]

/-- C1: the spec says that when every credential is cooling down, rotate()
blocks at least until the minimum cooldown_until across credentials elapses
and then returns with the cursor on a non-cooling credential.  The code
instead never returns: rotate_token only reads the is_cooling_down flags,
never clears them and never compares cooldown_until with the clock, so with
every flag set (here both cooldowns expired at time 5) the loop sleeps 60
seconds per wrap and rescans forever — for every fuel the loop is still
running. -/
theorem rotate_token_all_cooling_never_returns :
    ∀ fuel, rotate_token two_cooling_pool 0 fuel = none := by
  have hall : ∀ t ∈ two_cooling_pool, t.is_cooling_down = true := by
    intro t ht
    simp only [two_cooling_pool, List.mem_cons, List.mem_singleton] at ht
    rcases ht with h | h | h
    · rw [h]
    · rw [h]
    · exact absurd h (List.not_mem_nil t)
  exact rotate_token_all_cooling two_cooling_pool 0 (by simp [two_cooling_pool]) hall

/-- C10: rotate_token's loop breaks only after the cursor has moved to a
different index holding a non-cooling credential (first conjunct), and for a
pool of exactly one credential the cursor wraps back to the original index
on every iteration, so rotate_token never returns, regardless of that
credential's cooldown state (second conjunct). -/
theorem rotate_token_never_stays_put :
    (∀ (tokens : List TokenStatus) (idx fuel idx1 : Nat), tokens ≠ [] →
        rotate_token tokens idx fuel = some idx1 →
        idx1 ≠ idx ∧ ∃ t, tokens.get? idx1 = some t ∧ t.is_cooling_down = false) ∧
    (∀ (t : TokenStatus) (fuel : Nat), rotate_token [t] 0 fuel = none) := by
  constructor
  · intro tokens idx fuel idx1 hne h
    unfold rotate_token at h
    rw [if_neg (by simpa [List.isEmpty_iff] using hne)] at h
    exact rotate_token_loop_break tokens idx fuel idx idx1 h
  · intro t fuel
    exact rotate_token_singleton t fuel

/-- Witness for C10 at a concrete pool: a two-token pool whose second token
is fresh rotates from cursor 0 to cursor 1, which indeed differs from the
start and holds a non-cooling credential; and the singleton pool diverges at
fuel 7. -/
theorem rotate_token_never_stays_put_witness :
    ((1 : Nat) ≠ 0 ∧ ∃ t, [{ token := "a", is_cooling_down := true : TokenStatus },
        { token := "b" : TokenStatus }].get? 1 = some t ∧ t.is_cooling_down = false) ∧
    rotate_token [{ token := "a" : TokenStatus }] 0 7 = none := by
  refine ⟨rotate_token_never_stays_put.1
      [{ token := "a", is_cooling_down := true }, { token := "b" }] 0 3 1
      (by simp) (by decide), rotate_token_never_stays_put.2 { token := "a" } 7⟩

/-- The fall-through part of TokenManager.should_wait after the cooldown
check (src/token_manager.py lines 119-131): quota-floor check (only waits if
the reset lies in the future), then the inter-request spacing check. -/
def should_wait_rest (cfg : TMConfig) (t : TokenStatus) (now : ℚ) : Bool × TokenStatus :=
  if t.remaining ≤ cfg.min_remaining_requests ∧ 0 < (t.reset_time : ℚ) - now then (true, t)
  else if now - t.last_used < cfg.request_interval then (true, t)
  else (false, t)

/-- TokenManager.should_wait (src/token_manager.py lines 109-131).  Besides
the boolean it returns the token, because the source mutates it: a cooldown
whose deadline has passed is cleared here (line 117) — and only here. -/
def should_wait (cfg : TMConfig) (t : TokenStatus) (now : ℚ) : Bool × TokenStatus :=
  if t.is_cooling_down then
    if now < t.cooldown_until then (true, t)
    else should_wait_rest cfg { t with is_cooling_down := false } now
  else should_wait_rest cfg t now

/-- TokenManager.get_wait_time (src/token_manager.py lines 133-147): three
mutually exclusive branches, first applicable wins. -/
def get_wait_time (cfg : TMConfig) (t : TokenStatus) (now : ℚ) : ℚ :=
  if t.is_cooling_down then max 0 (t.cooldown_until - now)
  else if t.remaining ≤ cfg.min_remaining_requests then max 0 ((t.reset_time : ℚ) - now)
  else max 0 (cfg.request_interval - (now - t.last_used))

/-- Modelled from the spec (section 4.2): the quota-floor wait — when the
floor is reached, wait until reset_at. -/
def spec_quota_wait (cfg : TMConfig) (t : TokenStatus) (now : ℚ) : ℚ :=
  if t.remaining ≤ cfg.min_remaining_requests then max 0 ((t.reset_time : ℚ) - now) else 0

/-- Modelled from the spec (section 4.2): the inter-request spacing wait —
the remainder of the spacing interval since the last use. -/
def spec_spacing_wait (cfg : TMConfig) (t : TokenStatus) (now : ℚ) : ℚ :=
  max 0 (cfg.request_interval - (now - t.last_used))

/-- Modelled from the spec (section 4.2): both reasons to wait are evaluated
and the longer wait wins. -/
def spec_gate_wait (cfg : TMConfig) (t : TokenStatus) (now : ℚ) : ℚ :=
  max (spec_quota_wait cfg t now) (spec_spacing_wait cfg t now)

/-- Concrete gate configuration for counterexamples: floor 100, spacing
1/10 second (the values used by src/nohope.py line 32). -/
def cfg_default : TMConfig := {}

/-- A credential whose quota floor is hit but whose reset time already
passed, used at time now = 10 with last_used = 10: the quota wait is 0 while
the spacing wait is 1/10. -/
def low_quota_token : TokenStatus :=
  { token := "a", remaining := 50, reset_time := 0, last_used := 10 }

/-- C5 counterexample: the claim says the returned wait equals the longer of
the quota-floor wait and the spacing wait.  At low_quota_token and time 10
the quota branch applies and returns 0, although the spacing wait is 1/10,
so the result is not the maximum of the two. -/
theorem get_wait_time_not_max_of_waits :
    get_wait_time cfg_default low_quota_token 10 ≠
      spec_gate_wait cfg_default low_quota_token 10 := by
  unfold get_wait_time spec_gate_wait spec_quota_wait spec_spacing_wait
  unfold cfg_default low_quota_token
  norm_num

/-- C5 amended: get_wait_time picks the first applicable reason rather than
the longer wait.  When the credential is not cooling down and the quota
floor is not reached, the result does coincide with the spec's
longer-wait-wins rule (the quota wait is then 0); but when the floor is
reached the quota wait is returned even if the spacing wait is longer. -/
theorem get_wait_time_first_applicable (cfg : TMConfig) (t : TokenStatus) (now : ℚ)
    (hcool : t.is_cooling_down = false) :
    (cfg.min_remaining_requests < t.remaining →
      get_wait_time cfg t now = spec_gate_wait cfg t now) ∧
    (t.remaining ≤ cfg.min_remaining_requests →
      get_wait_time cfg t now = spec_quota_wait cfg t now) := by
  constructor
  · intro hrem
    have hfloor : ¬ t.remaining ≤ cfg.min_remaining_requests := not_le.mpr hrem
    unfold get_wait_time spec_gate_wait spec_quota_wait spec_spacing_wait
    rw [if_neg (by simp [hcool]), if_neg hfloor, if_neg hfloor]
    exact (max_eq_right (le_max_left 0 _)).symm
  · intro hfloor
    unfold get_wait_time spec_quota_wait
    rw [if_neg (by simp [hcool]), if_pos hfloor, if_pos hfloor]

/-- Witness for C5: a fresh credential (remaining 5000 above the floor) gets
the spec's longer-wait result, and low_quota_token (floor reached) gets the
quota wait. -/
theorem get_wait_time_first_applicable_witness :
    get_wait_time cfg_default { token := "b" } 1 =
      spec_gate_wait cfg_default { token := "b" } 1 ∧
    get_wait_time cfg_default low_quota_token 10 =
      spec_quota_wait cfg_default low_quota_token 10 :=
  ⟨(get_wait_time_first_applicable cfg_default { token := "b" } 1 (by decide)).1
      (by decide),
   (get_wait_time_first_applicable cfg_default low_quota_token 10 (by decide)).2
      (by decide)⟩

/-- A quota snapshot as parsed from the rate-limit response headers
(src/token_manager.py lines 85-87). -/
structure Snapshot where
  remaining : Int
  limit : Int
  reset : Int
deriving DecidableEq, Repr

/-- The per-token effect of TokenManager.update_token_status
(src/token_manager.py lines 89-102): copy the snapshot into the token, stamp
last_used, and if the observed remaining is strictly below the floor, set
the cooldown flag with cooldown_until = reset. -/
def observe_token (cfg : TMConfig) (t : TokenStatus) (s : Snapshot) (now : ℚ) : TokenStatus :=
  let t1 := { t with remaining := s.remaining, limit := s.limit,
                     reset_time := s.reset, last_used := now }
  if s.remaining < cfg.min_remaining_requests then
    { t1 with is_cooling_down := true, cooldown_until := (s.reset : ℚ) }
  else t1

/-- TokenManager.update_token_status (src/token_manager.py lines 82-107) on
the manager state (token list plus cursor).  j is the position of the token
object the caller passed (the callers pass the current token, j = idx).
When the cooldown branch fires the source calls rotate_token, which can fail
to return (all tokens cooling); none propagates that. -/
def update_token_status (cfg : TMConfig) (tokens : List TokenStatus) (idx j : Nat)
    (s : Snapshot) (now : ℚ) (fuel : Nat) : Option (List TokenStatus × Nat) :=
  match tokens.get? j with
  | none => some (tokens, idx)
  | some t =>
    let t1 := observe_token cfg t s now
    let tokens1 := tokens.set j t1
    if s.remaining < cfg.min_remaining_requests then
      match rotate_token tokens1 idx fuel with
      | none => none
      | some idx1 => some (tokens1, idx1)
    else some (tokens1, idx)

/-- Gate configuration with quota floor 10, matching the scenario of the
observe claim. -/
def cfg_floor10 : TMConfig := { min_remaining_requests := 10 }

/-- C2 counterexample: the claim says a remaining at or below the floor
triggers the cooldown and a rotation.  Observing remaining = 10 with floor
10 (at or below, not strictly below) leaves is_cooling_down = false and the
cursor at credential A: the source compares with a strict less-than
(src/token_manager.py line 100). -/
theorem update_token_status_at_floor_keeps_active :
    (update_token_status cfg_floor10
        [{ token := "a" }, { token := "b" }] 0 0 ⟨10, 5000, 999⟩ 5 5).map
      (fun r => ((r.1.get? 0).map TokenStatus.is_cooling_down, r.2)) =
      some (some false, 0) := by
  decide

/-- C2 amended: for every pool of two credentials with B not cooling down,
observing on A a snapshot whose remaining is strictly below the floor
updates remaining/limit/reset_at and last_used from the snapshot, sets A's
is_cooling_down with cooldown_until = reset_at, and rotates the cursor to
B. -/
theorem update_token_status_below_floor_rotates (cfg : TMConfig)
    (a b : TokenStatus) (s : Snapshot) (now : ℚ) (fuel : Nat)
    (hb : b.is_cooling_down = false)
    (hs : s.remaining < cfg.min_remaining_requests) :
    update_token_status cfg [a, b] 0 0 s now (fuel + 1) =
      some ([{ a with remaining := s.remaining, limit := s.limit,
                      reset_time := s.reset, last_used := now,
                      is_cooling_down := true, cooldown_until := (s.reset : ℚ) }, b],
            1) := by
  unfold update_token_status observe_token
  simp only [List.get?_cons_zero, List.set_cons_zero, if_pos hs]
  unfold rotate_token
  simp [rotate_token_loop, hb]

/-- Witness for C2 at the spec's scenario: pool of two fresh credentials,
floor 10, first observation on A reports remaining = 5; A enters cooldown
with cooldown_until = 999 and the cursor rotates to B. -/
theorem update_token_status_below_floor_rotates_witness :
    update_token_status cfg_floor10
        [{ token := "a" }, { token := "b" }] 0 0 ⟨5, 5000, 999⟩ 2 (4 + 1) =
      some ([{ token := "a", remaining := 5, limit := 5000, reset_time := 999,
               last_used := 2, is_cooling_down := true, cooldown_until := 999 : TokenStatus },
             { token := "b" }], 1) :=
  update_token_status_below_floor_rotates cfg_floor10
    { token := "a" } { token := "b" } ⟨5, 5000, 999⟩ 2 4 (by decide) (by decide)

/-- An interaction with a single credential's state: a quota observation
(the per-token part of update_token_status) or a gate check (should_wait).
These are the only two places in src/token_manager.py that write a
credential's quota fields. -/
inductive TMOp where
  | observe (s : Snapshot) (now : ℚ)
  | gate (now : ℚ)
deriving DecidableEq, Repr

/-- Runs a sequence of observations and gate checks against one
credential. -/
def run_token_ops (cfg : TMConfig) : TokenStatus → List TMOp → TokenStatus
  | t, [] => t
  | t, TMOp.observe s now :: ops => run_token_ops cfg (observe_token cfg t s now) ops
  | t, TMOp.gate now :: ops => run_token_ops cfg (should_wait cfg t now).2 ops

lemma observe_token_remaining (cfg : TMConfig) (t : TokenStatus) (s : Snapshot) (now : ℚ) :
    (observe_token cfg t s now).remaining = s.remaining := by
  unfold observe_token
  split <;> rfl

lemma should_wait_rest_snd (cfg : TMConfig) (t : TokenStatus) (now : ℚ) :
    (should_wait_rest cfg t now).2 = t := by
  unfold should_wait_rest
  split
  · rfl
  · split <;> rfl

lemma should_wait_snd_remaining (cfg : TMConfig) (t : TokenStatus) (now : ℚ) :
    ((should_wait cfg t now).2).remaining = t.remaining := by
  unfold should_wait
  split
  · split
    · rfl
    · rw [should_wait_rest_snd]
  · rw [should_wait_rest_snd]

/-- C8 counterexample: the claim says a credential's remaining count never
becomes negative, for every quota snapshot.  The source copies the parsed
header value verbatim (src/token_manager.py line 89), so a snapshot
reporting remaining = -1 is stored as -1. -/
theorem observe_token_stores_negative_snapshot :
    (observe_token cfg_default { token := "a" } ⟨-1, 5000, 0⟩ 0).remaining < 0 := by
  decide

/-- C8 amended: provided every observed snapshot reports a non-negative
remaining (the code never decrements the counter on its own), the
credential's remaining count never becomes negative under any sequence of
observations and gate checks; and after a gate check (should_wait) at time
nowg, is_cooling_down still being set implies nowg is before
cooldown_until — the gate check clears the flag as soon as the deadline has
passed (src/token_manager.py line 117). -/
theorem token_remaining_nonneg_and_gate_clears (cfg : TMConfig) (t0 : TokenStatus)
    (ops : List TMOp) (tg : TokenStatus) (nowg : ℚ)
    (h0 : 0 ≤ t0.remaining)
    (hobs : ∀ s now, TMOp.observe s now ∈ ops → 0 ≤ s.remaining) :
    0 ≤ (run_token_ops cfg t0 ops).remaining ∧
    ((should_wait cfg tg nowg).2.is_cooling_down = true →
      nowg < (should_wait cfg tg nowg).2.cooldown_until) := by
  constructor
  · induction ops generalizing t0 with
    | nil => exact h0
    | cons op ops ih =>
      cases op with
      | observe s now =>
        have hs : 0 ≤ s.remaining := hobs s now (List.mem_cons_self _ _)
        have hrem : 0 ≤ (observe_token cfg t0 s now).remaining := by
          rw [observe_token_remaining]; exact hs
        exact ih _ hrem (fun s1 n1 h1 => hobs s1 n1 (List.mem_cons_of_mem _ h1))
      | gate now =>
        have hrem : 0 ≤ ((should_wait cfg t0 now).2).remaining := by
          rw [should_wait_snd_remaining]; exact h0
        exact ih _ hrem (fun s1 n1 h1 => hobs s1 n1 (List.mem_cons_of_mem _ h1))
  · intro hcool
    unfold should_wait at hcool ⊢
    by_cases h1 : tg.is_cooling_down
    · by_cases h2 : nowg < tg.cooldown_until
      · simp [h1, h2]
      · rw [if_pos h1, if_neg h2] at hcool
        rw [should_wait_rest_snd] at hcool
        simp at hcool
    · rw [if_neg h1] at hcool
      rw [should_wait_rest_snd] at hcool
      exact absurd hcool (by simpa using h1)

/-- Witness for C8: a fresh credential observed with remaining = 50 then
gate-checked keeps a non-negative remaining, and a cooling credential whose
deadline is 10 gate-checked at time 3 is still before its deadline. -/
theorem token_remaining_nonneg_and_gate_clears_witness :
    0 ≤ (run_token_ops cfg_default { token := "a" }
          [TMOp.observe ⟨50, 5000, 100⟩ 2, TMOp.gate 3]).remaining ∧
    (3 : ℚ) < ((should_wait cfg_default
          { token := "g", is_cooling_down := true, cooldown_until := 10 } 3).2).cooldown_until := by
  have h := token_remaining_nonneg_and_gate_clears cfg_default { token := "a" }
      [TMOp.observe ⟨50, 5000, 100⟩ 2, TMOp.gate 3]
      { token := "g", is_cooling_down := true, cooldown_until := 10 } 3
      (by decide)
      (by intro s now hmem
          simp only [List.mem_cons, List.not_mem_nil, or_false] at hmem
          cases hmem with
          | inl h1 => cases h1; decide
          | inr h1 => cases h1)
  exact ⟨h.1, h.2 (by decide)⟩

/-- Increments the failure counter of the token at position j
(current_token.failure_count += 1 in src/token_manager.py lines 179/185/191). -/
def inc_failure (tokens : List TokenStatus) (j : Nat) : List TokenStatus :=
  match tokens.get? j with
  | none => tokens
  | some t => tokens.set j { t with failure_count := t.failure_count + 1 }

/-- Increments the success counter of the token at position j
(current_token.success_count += 1 in src/token_manager.py line 176). -/
def inc_success (tokens : List TokenStatus) (j : Nat) : List TokenStatus :=
  match tokens.get? j with
  | none => tokens
  | some t => tokens.set j { t with success_count := t.success_count + 1 }

/-- The inner wait loop of TokenManager.queue_request (src/token_manager.py
lines 164-168): while should_wait, compute the wait and sleep it when
positive.  Sleeping advances the clock by the computed wait; the loop
carries the token because should_wait may clear an expired cooldown.  none
models running out of fuel, i.e. the source loop still spinning. -/
def wait_loop (cfg : TMConfig) : TokenStatus → ℚ → Nat → Option (TokenStatus × ℚ)
  | _, _, 0 => none
  | t, now, fuel + 1 =>
    if (should_wait cfg t now).1 then
      wait_loop cfg (should_wait cfg t now).2
        (if 0 < get_wait_time cfg (should_wait cfg t now).2 now then
          now + get_wait_time cfg (should_wait cfg t now).2 now
        else now) fuel
    else some ((should_wait cfg t now).2, now)

/-- What one HTTP call of queue_request can come back with
(src/token_manager.py lines 171-194): a 200 with a payload, a 403, another
status, or a raised exception; non-exception responses carry the rate-limit
headers as a snapshot. -/
inductive RespEvent where
  | success (payload : Nat) (s : Snapshot)
  | status403 (s : Snapshot)
  | statusOther (code : Nat) (s : Snapshot)
  | exc
deriving DecidableEq, Repr

/-- The value queue_request hands back to its caller: the parsed payload of
a 200 response, or None — the source returns None both when no token is
available (line 158) and after the retries are exhausted (line 197).
diverged marks a call that never returns because one of the inner loops
(rotate_token or the wait loop) never terminates. -/
inductive QRResult where
  | payload (p : Nat)
  | noResult
  | diverged
deriving DecidableEq, Repr

/-- One iteration of the retry loop of TokenManager.queue_request
(src/token_manager.py lines 154-194): fetch the current token (None on an
empty pool), run the rate-gate wait loop, perform the HTTP call (consuming
resp at the running call count), update quota state from the response
headers, and either return (inl) or continue retrying (inr) with the
incremented call count.  On a 403 the source rotates once more after
update_token_status. -/
def qr_attempt (cfg : TMConfig) (resp : Nat → RespEvent) (fuel : Nat)
    (tokens : List TokenStatus) (idx : Nat) (now : ℚ) (calls : Nat) :
    (QRResult × Nat × List TokenStatus × Nat) ⊕ (List TokenStatus × Nat × ℚ × Nat) :=
  match get_current_token tokens idx with
  | none => .inl (.noResult, calls, tokens, idx)
  | some t =>
    match wait_loop cfg t now fuel with
    | none => .inl (.diverged, calls, tokens, idx)
    | some (t1, now1) =>
      match resp calls with
      | .exc => .inr (inc_failure (tokens.set idx t1) idx, idx, now1, calls + 1)
      | .success p _s =>
        match update_token_status cfg (tokens.set idx t1) idx idx _s now1 fuel with
        | none => .inl (.diverged, calls + 1, tokens.set idx t1, idx)
        | some (tokens2, idx2) => .inl (.payload p, calls + 1, inc_success tokens2 idx, idx2)
      | .status403 s =>
        match update_token_status cfg (tokens.set idx t1) idx idx s now1 fuel with
        | none => .inl (.diverged, calls + 1, tokens.set idx t1, idx)
        | some (tokens2, idx2) =>
          match rotate_token (inc_failure tokens2 idx) idx2 fuel with
          | none => .inl (.diverged, calls + 1, inc_failure tokens2 idx, idx2)
          | some idx3 => .inr (inc_failure tokens2 idx, idx3, now1, calls + 1)
      | .statusOther _code s =>
        match update_token_status cfg (tokens.set idx t1) idx idx s now1 fuel with
        | none => .inl (.diverged, calls + 1, tokens.set idx t1, idx)
        | some (tokens2, idx2) => .inr (inc_failure tokens2 idx, idx2, now1, calls + 1)

/-- The retry loop of TokenManager.queue_request (while retry_count <
max_retries, src/token_manager.py line 154), driven by the remaining budget
max_retries - retry_count; when it reaches zero the source falls out of the
loop and returns None. -/
def queue_request_loop (cfg : TMConfig) (resp : Nat → RespEvent) (fuel : Nat) :
    Nat → List TokenStatus → Nat → ℚ → Nat → QRResult × Nat × List TokenStatus × Nat
  | 0, tokens, idx, _now, calls => (.noResult, calls, tokens, idx)
  | budget + 1, tokens, idx, now, calls =>
    match qr_attempt cfg resp fuel tokens idx now calls with
    | .inl r => r
    | .inr (tokens1, idx1, now1, calls1) =>
      queue_request_loop cfg resp fuel budget tokens1 idx1 now1 calls1

/-- The retry bound of TokenManager.queue_request (src/token_manager.py
line 151). -/
def max_retries : Nat := 3

/-- TokenManager.queue_request (src/token_manager.py lines 149-197) on the
manager state, with the HTTP responses supplied as an oracle indexed by the
number of calls already made.  Returns the result, the number of HTTP calls
performed, and the final pool state and cursor. -/
def queue_request (cfg : TMConfig) (resp : Nat → RespEvent) (fuel : Nat)
    (tokens : List TokenStatus) (idx : Nat) (now : ℚ) :
    QRResult × Nat × List TokenStatus × Nat :=
  queue_request_loop cfg resp fuel max_retries tokens idx now 0

/-- The call count carried by either outcome of one retry iteration. -/
def attempt_calls :
    (QRResult × Nat × List TokenStatus × Nat) ⊕ (List TokenStatus × Nat × ℚ × Nat) → Nat
  | .inl r => r.2.1
  | .inr s => s.2.2.2

lemma qr_attempt_calls_le (cfg : TMConfig) (resp : Nat → RespEvent) (fuel : Nat)
    (tokens : List TokenStatus) (idx : Nat) (now : ℚ) (calls : Nat) :
    attempt_calls (qr_attempt cfg resp fuel tokens idx now calls) ≤ calls + 1 := by
  unfold qr_attempt
  repeat' split
  all_goals simp only [attempt_calls]
  all_goals omega

lemma queue_request_loop_calls_le (cfg : TMConfig) (resp : Nat → RespEvent) (fuel : Nat) :
    ∀ budget tokens idx now calls,
      (queue_request_loop cfg resp fuel budget tokens idx now calls).2.1 ≤ calls + budget := by
  intro budget
  induction budget with
  | zero =>
    intro tokens idx now calls
    simp [queue_request_loop]
  | succ b ih =>
    intro tokens idx now calls
    have hle := qr_attempt_calls_le cfg resp fuel tokens idx now calls
    simp only [queue_request_loop]
    cases hq : qr_attempt cfg resp fuel tokens idx now calls with
    | inl r =>
      rw [hq] at hle
      simp only [attempt_calls] at hle
      dsimp only
      omega
    | inr s =>
      obtain ⟨tokens1, idx1, now1, calls1⟩ := s
      rw [hq] at hle
      simp only [attempt_calls] at hle
      dsimp only
      have := ih tokens1 idx1 now1 calls1
      omega

/-- C3: for every pool state, response oracle and clock, queue_request
performs at most max_retries = 3 underlying HTTP calls before returning (or
before getting stuck in one of the source's inner loops): the retry loop is
driven by the explicit retry counter and the call count is bounded by it. -/
theorem queue_request_calls_le_max_retries (cfg : TMConfig) (resp : Nat → RespEvent)
    (fuel : Nat) (tokens : List TokenStatus) (idx : Nat) (now : ℚ) :
    (queue_request cfg resp fuel tokens idx now).2.1 ≤ max_retries := by
  have h := queue_request_loop_calls_le cfg resp fuel max_retries tokens idx now 0
  simpa [queue_request] using h

/-- A pool of two fresh credentials. -/
def fresh_two_pool : List TokenStatus := [{ token := "a" }, { token := "b" }]

/-- An oracle under which every HTTP call raises (transport failure). -/
def exc_responses : Nat → RespEvent := fun _ => RespEvent.exc

/-- C4 counterexample: the claim says exhausting the retries returns a typed
RetriesExhausted failure carrying the last observed status or error.  The
source returns the bare None (line 197) — the very same value it returns
when no credential is available at all (line 158), carrying no status or
error: after three transport failures the caller receives exactly what an
empty pool produces. -/
theorem queue_request_exhaustion_indistinguishable :
    (queue_request cfg_default exc_responses 10 fresh_two_pool 0 1).1 = QRResult.noResult ∧
    (queue_request cfg_default exc_responses 10 [] 0 1).1 = QRResult.noResult := by
  constructor <;>
    norm_num [queue_request, queue_request_loop, max_retries, qr_attempt,
      get_current_token, fresh_two_pool, wait_loop, should_wait, should_wait_rest,
      get_wait_time, cfg_default, exc_responses, inc_failure]

/-- C4 amended: after max_retries failed attempts queue_request returns
None (modelled as noResult), having made exactly 3 HTTP calls and counted 3
failures against the current credential; the None carries no status and is
the caller's only signal. -/
theorem queue_request_exhaustion_returns_none :
    queue_request cfg_default exc_responses 10 fresh_two_pool 0 1 =
      (QRResult.noResult, 3,
        [{ token := "a", failure_count := 3 }, { token := "b" }], 0) := by
  norm_num [queue_request, queue_request_loop, max_retries, qr_attempt,
    get_current_token, fresh_two_pool, wait_loop, should_wait, should_wait_rest,
    get_wait_time, cfg_default, exc_responses, inc_failure]

/-- The body of get_top_5000_repos (src/nohope.py lines 113-127) on the
per-window result lists: the window results are concatenated in query order
(repos.extend per gathered result) and truncated to the first 5000 entries;
no deduplication happens here.  Entities are represented by their stable
key (full_name). -/
def get_top_5000_repos (windows : List (List Nat)) : List Nat :=
  windows.flatten.take 5000

/-- First-occurrence deduplication by key, structurally recursive over the
row list with an accumulator of already-seen keys. -/
def dedup_first_aux (seen : List Nat) : List Nat → List Nat
  | [] => []
  | x :: xs =>
    if x ∈ seen then dedup_first_aux seen xs
    else x :: dedup_first_aux (x :: seen) xs

/-- Keeps the first row for every key. -/
def dedup_first (l : List Nat) : List Nat := dedup_first_aux [] l

/-- Modelled from the spec: the Sink's append_or_upsert keyed by the
entity's stable key (spec sections 3 and 6).  The source writes the
truncated list with INSERT IGNORE into the repositories table
(src/nohope.py lines 139-158); the table schema itself is not in src, so
the keyed upsert — first row per key wins, later duplicates are ignored —
is taken from the spec's sink contract. -/
def sink_upsert_keyed (rows : List Nat) : List Nat := dedup_first rows

/-- The search stage's durable checkpoint: what remains in the sink after
get_top_5000_repos' output is written through the keyed upsert. -/
def search_stage_checkpoint (windows : List (List Nat)) : List Nat :=
  sink_upsert_keyed (get_top_5000_repos windows)

/-- Modelled from the spec (section 4.4, search stage): deduplicate by
entity key first, then truncate to the configured maximum of 5000. -/
def spec_search_checkpoint (windows : List (List Nat)) : List Nat :=
  (dedup_first windows.flatten).take 5000

lemma dedup_first_aux_skip (seen : List Nat) (x : Nat) (xs : List Nat) (hx : x ∈ seen) :
    dedup_first_aux seen (x :: xs) = dedup_first_aux seen xs := by
  simp [dedup_first_aux, hx]

lemma dedup_first_aux_of_nodup (l : List Nat) :
    ∀ seen, l.Nodup → (∀ x ∈ l, x ∉ seen) → dedup_first_aux seen l = l := by
  induction l with
  | nil => intro seen _ _; rfl
  | cons x xs ih =>
    intro seen hnd hdisj
    have hx : x ∉ seen := hdisj x (List.mem_cons_self x xs)
    simp only [dedup_first_aux, if_neg hx]
    congr 1
    apply ih (x :: seen) (List.Nodup.of_cons hnd)
    intro y hy
    simp only [List.mem_cons, not_or]
    exact ⟨fun heq => (List.nodup_cons.mp hnd).1 (heq ▸ hy),
           hdisj y (List.mem_cons_of_mem x hy)⟩

lemma dedup_first_map_succ (n : Nat) :
    dedup_first_aux [0] ((List.range n).map Nat.succ) = (List.range n).map Nat.succ := by
  apply dedup_first_aux_of_nodup
  · exact (List.nodup_range n).map Nat.succ_injective
  · intro y hy
    simp only [List.mem_map] at hy
    obtain ⟨z, _, hz⟩ := hy
    simp only [List.mem_singleton]
    omega

lemma dedup_first_zero_range (n : Nat) :
    dedup_first (0 :: List.range (n + 1)) = 0 :: (List.range n).map Nat.succ := by
  unfold dedup_first
  rw [List.range_succ_eq_map]
  simp only [dedup_first_aux, List.not_mem_nil, if_false]
  rw [if_pos (List.mem_singleton_self 0)]
  rw [dedup_first_map_succ n]

/-- The windows for the dedup-ordering counterexample: one window returning
just the entity 0, one window returning the 5000 entities 0..4999 (entity 0
duplicated across the windows), 5001 rows in total. -/
def wide_windows : List (List Nat) := [[0], List.range 5000]

/-- C6 counterexample: the claim says the search stage deduplicates by
entity key before truncating to the maximum.  On wide_windows the code
truncates the concatenation to 5000 rows first — cutting off entity 4999 —
and only the sink's upsert deduplicates, so the checkpoint has 4999
entities; deduplicating before truncating would keep all 5000. -/
theorem search_checkpoint_not_dedup_before_truncate :
    search_stage_checkpoint wide_windows ≠ spec_search_checkpoint wide_windows := by
  have hflat : ([[0], List.range 5000] : List (List Nat)).flatten = 0 :: List.range 5000 := by
    simp only [List.flatten_cons, List.flatten_nil, List.append_nil, List.singleton_append]
  have h1 : search_stage_checkpoint wide_windows =
      0 :: (List.range 4998).map Nat.succ := by
    unfold search_stage_checkpoint sink_upsert_keyed get_top_5000_repos wide_windows
    rw [hflat]
    rw [show (5000 : Nat) = 4999 + 1 from rfl, List.take_succ_cons,
        List.take_range 4999 5000]
    rw [show (4999 ⊓ 5000 : Nat) = 4998 + 1 from rfl]
    exact dedup_first_zero_range 4998
  have h2 : spec_search_checkpoint wide_windows =
      0 :: (List.range 4999).map Nat.succ := by
    unfold spec_search_checkpoint wide_windows
    rw [hflat]
    rw [show (5000 : Nat) = 4999 + 1 from rfl, dedup_first_zero_range 4999]
    apply List.take_of_length_le
    simp
  intro h
  rw [h1, h2] at h
  have hlen := congrArg List.length h
  simp at hlen

/-- C6 amended, at the spec's scenario: window 1 returns the entities
0,1,2 and window 2 returns 1,2 (overlapping) and 3 (new).  The list the
search stage builds still contains the duplicates — it is the concatenation
truncated to 5000 — and only the sink's keyed upsert leaves the checkpoint
with exactly the 4 unique entities. -/
theorem search_checkpoint_scenario :
    get_top_5000_repos [[0, 1, 2], [1, 2, 3]] = [0, 1, 2, 1, 2, 3] ∧
    search_stage_checkpoint [[0, 1, 2], [1, 2, 3]] = [0, 1, 2, 3] := by
  constructor
  · decide
  · decide

/-- One row of the releases checkpoint (output/releases.csv): the repository
key, the tag name and the release identifier — the (parent, child) key data
the commits stage is meant to read back. -/
structure ReleaseRow where
  repo : String
  tag_name : String
  release_id : Nat
deriving DecidableEq, Repr

/-- The pair-derivation logic of crawl_all_commits (src/nohope.py lines
282-343): none models a missing releases.csv (the stage returns immediately,
line 295-297); with a checkpoint present the source sets repo_releases = {}
(line 300) and the comment announcing the read of the checkpoint rows is
followed by no code that populates it, so the batched iteration runs over
the keys of that empty dict; per repository only the first 3 releases would
be taken and rows with an empty tag or falsy release id skipped (lines
313-320). -/
def crawl_all_commits_pairs (checkpoint : Option (List ReleaseRow)) :
    List (String × String × Nat) :=
  match checkpoint with
  | none => []
  | some _rows =>
    let repo_releases : List (String × List ReleaseRow) := []
    (repo_releases.map (fun pr =>
      (pr.2.take 3).filterMap (fun r =>
        if r.tag_name ≠ "" ∧ r.release_id ≠ 0 then
          some (pr.1, r.tag_name, r.release_id)
        else none))).flatten

/-- C7: the commits stage fetches no (parent, child) pair at all — here
evaluated at a checkpoint actually containing the persisted pair
(repoA, v1.0), and then for every checkpoint whatsoever.  The set of pairs
fetched is trivially contained in the checkpoint (nothing is fabricated),
but only because the read of the persisted checkpoint was never
implemented: repo_releases stays empty, contradicting both the source's own
comment and the spec's description of the stage. -/
theorem crawl_all_commits_fetches_no_pairs :
    crawl_all_commits_pairs
        (some [{ repo := "repoA", tag_name := "v1.0", release_id := 1 }]) = [] ∧
    ∀ rows, crawl_all_commits_pairs (some rows) = [] :=
  ⟨rfl, fun _ => rfl⟩

/-- Python str.strip at character level: drop whitespace from both ends
(content.strip() and t.strip() in src/token_manager.py lines 48-50). -/
def py_strip (l : List Char) : List Char :=
  ((l.dropWhile Char.isWhitespace).reverse.dropWhile Char.isWhitespace).reverse

/-- Python str.split at character level for the separator \x27,\x27
(content.split(1) yields one group more than the number of commas; splitting
the empty text yields the single empty group, as in Python). -/
def py_split_comma : List Char → List (List Char)
  | [] => [[]]
  | c :: cs =>
    match py_split_comma cs with
    | [] => [[c]]
    | g :: gs => if c = ',' then [] :: g :: gs else (c :: g) :: gs

/-- The token parsing of TokenManager.load_tokens (src/token_manager.py
lines 47-51): strip the whole content, split on commas, strip every piece
and keep the non-empty ones. -/
def parse_tokens (content : List Char) : List (List Char) :=
  ((py_split_comma (py_strip content)).map py_strip).filter (fun t => t ≠ [])

/-- TokenManager.load_tokens (src/token_manager.py lines 44-55): none
models an unreadable source (the open raises and the except block re-raises
after logging, lines 53-55); otherwise every parsed piece becomes a
TokenStatus with full default quota and no error is ever raised — not even
for an empty token list. -/
def load_tokens (source : Option (List Char)) : Except String (List TokenStatus) :=
  match source with
  | none => Except.error "unreadable"
  | some content =>
    Except.ok ((parse_tokens content).map (fun t => { token := String.mk t }))

/-- C9 counterexample: the claim says loading an empty source fails and
never succeeds yielding an empty pool.  The source strips and splits the
empty content to no tokens and assigns the empty pool without raising
(it merely logs Loaded 0 tokens), so load succeeds with an empty pool. -/
theorem load_tokens_empty_source_succeeds :
    load_tokens (some []) = Except.ok [] := rfl

/-- C9 amended: an unreadable source fails (by re-raising the underlying
exception, not a dedicated config error), while an empty source — or one
holding only whitespace and commas — succeeds yielding an empty pool; the
empty pool only surfaces later, as get_current_token returning None. -/
theorem load_tokens_behavior :
    load_tokens none = Except.error "unreadable" ∧
    load_tokens (some []) = Except.ok [] ∧
    load_tokens (some [' ', ',', ' ', ',']) = Except.ok [] ∧
    get_current_token [] 0 = none :=
  ⟨rfl, rfl, rfl, rfl⟩
